import Mathlib

set_option maxRecDepth 16384

/-
Verification of the video-summarization pipeline of this repository.

The pipeline lives in the Next.js API route `src/app/api/summarize/route.ts`
and in three near-identical route variants (here called V1, V2, V3 after their
order in the repository), together with the client component
`youtube-summarizer.tsx` (the retry/cooldown controller).

The embedding below translates the source into pure Lean functions:

* the video-id regex used by every variant becomes a small backtracking
  matcher in continuation-passing style (`extractVideoId`);
* the `extractJson` normalizers become total functions parameterized by an
  abstract model of `JSON.parse` (an external library call), where `none`
  models a parse exception;
* each route handler becomes a function from an environment record (the
  resolved results of its network / subprocess / model effects) to the JSON
  response it returns, paired with a trace that records which acquisition
  stages ran and what was sent to the generative model;
* the client component's timer effect and cancel handler become a step
  function on its state record.
-/

/- ===================================================================
   1. The video-id extractor.

   Every route variant and the client component share the regex

   /(?:https?:\/\/)?(?:www\.)?(?:youtube\.com\/(?:[^\/\n\s]+\/\S+\/|(?:v|e(?:mbed)?)\/|\S*?[?&]v=)|youtu\.be\/)([a-zA-Z0-9_-]{11})/

   applied with `url.match(...)`, taking capture group 1.  The matcher
   below hand-compiles exactly this pattern: alternatives are tried left
   to right, `+` and `*` are greedy, `*?` is lazy, and the scan tries
   successive start positions like `String.prototype.match` does.
   =================================================================== -/

/-- JS `\s` (the ASCII members; the exotic Unicode spaces never matter here). -/
def isSpace (c : Char) : Bool :=
  c = ' ' || c = '\t' || c = '\n' || c = '\r' || c = '\x0b' || c = '\x0c'

/-- The class `[a-zA-Z0-9_-]`, the identifier alphabet of capture group 1. -/
def isIdChar (c : Char) : Bool :=
  ('a' ≤ c && c ≤ 'z') || ('A' ≤ c && c ≤ 'Z') || ('0' ≤ c && c ≤ '9') || c = '_' || c = '-'

/-- The class `[^\/\n\s]` (note `\n` is already whitespace). -/
def notSlashSpace (c : Char) : Bool := !(c = '/') && !(isSpace c)

/-- The class `\S`. -/
def notSpace (c : Char) : Bool := !(isSpace c)

/-- The class `[?&]`. -/
def isQA (c : Char) : Bool := c = '?' || c = '&'

/-- Ordered alternation on match results: the left (preferred) branch wins. -/
def pOr (a b : Option (List Char)) : Option (List Char) :=
  match a with
  | some r => some r
  | none => b

/-- Match a literal character sequence, then continue. -/
def matchLit : List Char → List Char → (List Char → Option (List Char)) → Option (List Char)
  | [], l, k => k l
  | _ :: _, [], _ => none
  | c :: cs, d :: l, k => if d = c then matchLit cs l k else none

/-- Greedy star over a character class: longest match is tried first. -/
def starCls (p : Char → Bool) : List Char → (List Char → Option (List Char)) → Option (List Char)
  | [], k => k []
  | c :: l, k => if p c then pOr (starCls p l k) (k (c :: l)) else k (c :: l)

/-- Greedy plus over a character class. -/
def plusCls (p : Char → Bool) (l : List Char) (k : List Char → Option (List Char)) :
    Option (List Char) :=
  match l with
  | [] => none
  | c :: l' => if p c then starCls p l' k else none

/-- Lazy star over a character class: shortest match is tried first. -/
def lazyCls (p : Char → Bool) : List Char → (List Char → Option (List Char)) → Option (List Char)
  | [], k => k []
  | c :: l, k => pOr (k (c :: l)) (if p c then lazyCls p l k else none)

/-- Take exactly `n` characters of class `p`, returning them and the rest. -/
def takeCls (p : Char → Bool) : Nat → List Char → Option (List Char × List Char)
  | 0, l => some ([], l)
  | _ + 1, [] => none
  | n + 1, c :: l => if p c then (takeCls p n l).map (fun q => (c :: q.1, q.2)) else none

/-- The capture group `([a-zA-Z0-9_-]{11})`; nothing follows it in the pattern,
    so matching eleven identifier characters completes the whole match. -/
def capK (l : List Char) : Option (List Char) :=
  (takeCls isIdChar 11 l).map (fun q => q.1)

/-- Branch `[^\/\n\s]+\/\S+\/` of the inner alternation. -/
def pAlt1 (l : List Char) (k : List Char → Option (List Char)) : Option (List Char) :=
  plusCls notSlashSpace l (fun l1 => matchLit ['/'] l1 (fun l2 =>
    plusCls notSpace l2 (fun l3 => matchLit ['/'] l3 k)))

/-- Branch `(?:v|e(?:mbed)?)\/` of the inner alternation. -/
def pAlt2 (l : List Char) (k : List Char → Option (List Char)) : Option (List Char) :=
  pOr (matchLit ['v', '/'] l k)
    (matchLit ['e'] l (fun l1 =>
      pOr (matchLit ['m', 'b', 'e', 'd', '/'] l1 k) (matchLit ['/'] l1 k)))

/-- Branch `\S*?[?&]v=` of the inner alternation. -/
def pAlt3 (l : List Char) (k : List Char → Option (List Char)) : Option (List Char) :=
  lazyCls notSpace l (fun l1 =>
    match l1 with
    | [] => none
    | c :: l2 => if isQA c then matchLit ['v', '='] l2 k else none)

/-- Alternation `(?:youtube\.com\/(?:…|…|…)|youtu\.be\/)`. -/
def pHost (l : List Char) (k : List Char → Option (List Char)) : Option (List Char) :=
  pOr
    (matchLit ['y','o','u','t','u','b','e','.','c','o','m','/'] l
      (fun l1 => pOr (pAlt1 l1 k) (pOr (pAlt2 l1 k) (pAlt3 l1 k))))
    (matchLit ['y','o','u','t','u','.','b','e','/'] l k)

/-- Optional `(?:www\.)?`. -/
def pWww (l : List Char) (k : List Char → Option (List Char)) : Option (List Char) :=
  pOr (matchLit ['w','w','w','.'] l k) (k l)

/-- Optional `(?:https?:\/\/)?`. -/
def pScheme (l : List Char) (k : List Char → Option (List Char)) : Option (List Char) :=
  pOr
    (matchLit ['h','t','t','p'] l (fun l1 =>
      pOr (matchLit ['s',':','/','/'] l1 k) (matchLit [':','/','/'] l1 k)))
    (k l)

/-- The whole pattern, anchored at the current position. -/
def pAt (l : List Char) : Option (List Char) :=
  pScheme l (fun l1 => pWww l1 (fun l2 => pHost l2 capK))

/-- The unanchored scan of `String.prototype.match`: successive start
    positions, leftmost match wins. -/
def scanId : List Char → Option (List Char)
  | [] => pAt []
  | l@(_ :: l') =>
    match pAt l with
    | some r => some r
    | none => scanId l'

/-- Model of `url.match(regex)` followed by `match ? match[1] : null` — the identifier
    extractor shared by all route variants and the client component.  A pure,
    deterministic function of the reference string. -/
def extractVideoId (s : String) : Option String :=
  (scanId s.data).map (fun l => String.mk l)

/- ===================================================================
   2. The response normalizer.

   Every variant defines `extractJson(text)`:

     const jsonMatch = text.match(/\{[\s\S]*\}/);
     const cleanedJson = jsonMatch ? jsonMatch[0] : text;
     try { return JSON.parse(cleanedJson); } catch { return FALLBACK; }

   The regex is greedy, so the matched span runs from the first `{` that
   has some `}` after it to the last `}` of the text; since any `}` after
   a later `{` also lies after the first `{`, a match exists exactly when
   some `}` occurs after the first `{`.  `JSON.parse` is an external
   library call; it is modelled by an abstract `parse` parameter whose
   `none` result stands for the exception the `catch` absorbs.  Only the
   `summary` / `notes` / `transcript` keys of a parsed object are ever
   read downstream, so a parse result is projected to those three fields.
   =================================================================== -/

/-- Projection of a JSON value to the three keys the routes read. -/
structure AiData where
  summary? : Option String
  notes? : Option String
  transcript? : Option String
deriving Repr, DecidableEq

/-- The span matched by the greedy `/\x7b[\s\S]*\x7d/`: drop up to the first
    `\x7b`; if some `\x7d` follows it, cut after the last `\x7d`. -/
def jsonSpan (l : List Char) : Option (List Char) :=
  match l.dropWhile (fun c => !(c = '\x7b')) with
  | [] => none
  | c :: tail =>
    if '\x7d' ∈ tail then
      some (((c :: tail).reverse.dropWhile (fun d => !(d = '\x7d'))).reverse)
    else none

/-- The string handed to `JSON.parse`: the matched span, or the whole raw
    text when the regex does not match. -/
def cleanedJson (text : String) : String :=
  match jsonSpan text.data with
  | some s => String.mk s
  | none => text

/-- Normalizer of `route.ts`.  A total function: the parse failure is
    absorbed into the fixed fallback object, never re-raised. -/
def extractJson (parse : String → Option AiData) (text : String) : AiData :=
  match parse (cleanedJson text) with
  | some j => j
  | none =>
    { summary? := some "I\x27ve generated the summary, but had trouble formatting it as JSON."
      notes? := some text
      transcript? := some "Transcript parsing failed." }

/-- Normalizer of variant V1 (same span logic, different fallback object). -/
def extractJsonV1 (parse : String → Option AiData) (text : String) : AiData :=
  match parse (cleanedJson text) with
  | some j => j
  | none =>
    { summary? := some "Summary generation failed."
      notes? := some text
      transcript? := some "Transcript unavailable." }

/-- Normalizer of variant V3 (its fallback object has no `transcript` key). -/
def extractJsonV3 (parse : String → Option AiData) (text : String) : AiData :=
  match parse (cleanedJson text) with
  | some j => j
  | none =>
    { summary? := some "Error parsing AI response."
      notes? := some text
      transcript? := none }

/- ===================================================================
   3. The canonical route handler, `src/app/api/summarize/route.ts`.

   The handler's effects (request body, env var, transcript fetch, ytdl
   info / format / download, the two `generateContent` calls, and
   `JSON.parse`) are resolved by an environment record; `Except.error`
   models a rejected promise / thrown exception, caught where the source
   catches it.  A trace records which stages ran and what was sent to
   the model, so that invocation-order claims are statable.
   =================================================================== -/

/-- An audio payload: its byte length plus an opaque content tag standing
    for the bytes themselves (the routes only ever read `.length` and
    base64-encode the whole buffer, an injective step). -/
structure AudioBuf where
  len : Nat
  content : Nat
deriving Repr, DecidableEq

/-- The resolved effects of one `POST /api/summarize` request. -/
structure RouteEnv where
  /-- The `url` field of the request body; `""` models a missing/falsy value. -/
  url : String
  /-- Whether `process.env.GEMINI_API_KEY` is set. -/
  hasKey : Bool
  /-- Result of `YoutubeTranscript.fetchTranscript`: the segment texts, or a
      rejection. -/
  fetchTranscript : Except String (List String)
  /-- Abstract `JSON.parse` projected to the keys read downstream. -/
  parse : String → Option AiData
  /-- The text-mode `model.generateContent(prompt)` call: raw model text or a
      rejection. -/
  genText : String → Except String String
  /-- Result of `ytdl.validateURL(url)`. -/
  validateURL : Bool
  /-- Result of `ytdl.getInfo(url)` (only its success matters downstream). -/
  getInfo : Except String Unit
  /-- Result of `ytdl.chooseFormat` (`none` models no suitable format). -/
  chooseFormat : Option Unit
  /-- Result of `downloadAudioStream(url)` (45 s timeout rejects). -/
  download : Except String AudioBuf
  /-- The audio-mode `model.generateContent([prompt, inlineData])` call. -/
  genAudio : String → AudioBuf → Except String String

/-- The JSON body and status of a `NextResponse.json` reply. -/
structure RouteResponse where
  status : Nat
  summary? : Option String := none
  notes? : Option String := none
  transcript? : Option String := none
  error? : Option String := none
deriving Repr, DecidableEq

/-- What the handler did on the way to its response. -/
structure RouteTrace where
  /-- Whether the `YoutubeTranscript` acquirer ran. -/
  fetchTried : Bool := false
  /-- The prompt passed to the text-mode `generateContent`, when that ran. -/
  textPrompt? : Option String := none
  /-- Whether the audio fallback branch was entered. -/
  audioBranch : Bool := false
  /-- The audio payload passed to the audio-mode `generateContent`, when
      that ran. -/
  audioSent? : Option AudioBuf := none
deriving Repr, DecidableEq

/-- The text-mode prompt template up to `${transcriptText.substring(0, 15000)}`. -/
def textPromptPre : String :=
  "\n                You are an expert educational content creator. I will provide you with a transcript of a YouTube video. \n                Your task is to generate:\n                1. A concise summary of the video (2-3 paragraphs).\n                2. Clean, well-structured study notes in markdown format, using headings, bullet points, and highlighting key concepts.\n                \n                Transcript:\n                "

/-- The text-mode prompt template after the interpolated transcript. -/
def textPromptPost : String :=
  "\n                \n                Please format your response as a JSON object with two keys: \"summary\" and \"notes\".\n                Ensure the \"notes\" are in valid Markdown.\n                "

/-- The text-mode prompt: the template around `transcriptText.substring(0, 15000)`. -/
def textPrompt (t : String) : String := textPromptPre ++ t.take 15000 ++ textPromptPost

/-- The audio-mode prompt of `route.ts` (a fixed string). -/
def audioPrompt : String :=
  "Listen to this audio from a YouTube video and generate:\n1. A verbatim transcript of the speech, formatted with frequent line breaks for readability (key \x27transcript\x27).\n2. A concise summary (2-3 paragraphs) (key \x27summary\x27).\n3. Clean, well-structured study notes in markdown format (key \x27notes\x27).\n\nPlease format your response as a JSON object with three keys: \x27summary\x27, \x27notes\x27, and \x27transcript\x27. Ensure \x27notes\x27 are in valid Markdown."

/-- The hard payload ceiling `19 * 1024 * 1024` of the audio path. -/
def mib19 : Nat := 19 * 1024 * 1024

/-- The message wrapper of the audio branch's catch block. -/
def audioFailMsg (m : String) : String :=
  "Failed to process video: " ++ m ++ ". This can happen if the video is too long or YouTube is blocking the request. Try a different video."

/-- The size-specific rejection message of `route.ts`. -/
def tooLargeMsg : String :=
  "Video audio is too large for the free tier (over 19MB). Please use a shorter video."

/-- The `videoId` local of `route.ts` (the failed match leaves it `""`). -/
def routeVideoId (env : RouteEnv) : String := (extractVideoId env.url).getD ""

/-- The `transcriptText` local after the single transcript attempt of
    `route.ts`: joined segments when the id was present and the fetch
    resolved non-empty, `""` otherwise. -/
def routeTranscriptText (env : RouteEnv) : String :=
  if routeVideoId env = "" then ""
  else
    match env.fetchTranscript with
    | .ok segs => if 0 < segs.length then String.intercalate "\n" segs else ""
    | .error _ => ""

/-- The audio-fallback block of `route.ts`: its try/catch body, returning the
    response together with the payload passed to `generateContent` (when the
    call was reached). -/
def routeAudioStage (env : RouteEnv) : RouteResponse × Option AudioBuf :=
  if env.validateURL = false then
    ({ status := 500,
       error? := some (audioFailMsg "Invalid YouTube URL for audio extraction.") }, none)
  else
    match env.getInfo with
    | .error m => ({ status := 500, error? := some (audioFailMsg m) }, none)
    | .ok _ =>
      match env.chooseFormat with
      | none =>
        ({ status := 500,
           error? := some (audioFailMsg "No suitable audio format found.") }, none)
      | some _ =>
        match env.download with
        | .error m => ({ status := 500, error? := some (audioFailMsg m) }, none)
        | .ok buf =>
          if mib19 < buf.len then
            ({ status := 400, error? := some tooLargeMsg }, none)
          else
            match env.genAudio audioPrompt buf with
            | .ok raw =>
              let ai := extractJson env.parse raw
              ({ status := 200, summary? := ai.summary?, notes? := ai.notes?,
                 transcript? := ai.transcript? }, some buf)
            | .error m => ({ status := 500, error? := some (audioFailMsg m) }, some buf)

/-- The `POST` handler of `route.ts`. -/
def routePOST (env : RouteEnv) : RouteResponse × RouteTrace :=
  if env.url = "" then
    ({ status := 400, error? := some "URL is required" }, {})
  else if env.hasKey = false then
    ({ status := 500, error? := some "Gemini API Key is not configured" }, {})
  else
    let transcriptText := routeTranscriptText env
    let tr0 : RouteTrace := { fetchTried := !(routeVideoId env = "") }
    if transcriptText ≠ "" ∧ 100 < transcriptText.length then
      let prompt := textPrompt transcriptText
      let tr := { tr0 with textPrompt? := some prompt }
      match env.genText prompt with
      | .ok raw =>
        let ai := extractJson env.parse raw
        ({ status := 200, summary? := ai.summary?, notes? := ai.notes?,
           transcript? := some transcriptText }, tr)
      | .error _ =>
        ({ status := 500,
           summary? := some "⚠️ **AI Summary Unavailable**\n\nWe encountered an error generating the summary.",
           notes? := some "Study notes are unavailable due to the AI error.",
           transcript? := some transcriptText }, tr)
    else
      let st := routeAudioStage env
      (st.1, { tr0 with audioBranch := true, audioSent? := st.2 })

/- ===================================================================
   4. Route variant V1: three transcript strategies, two audio
      strategies, and a yt-dlp binary probed with `fs.existsSync`.

   Strategy 3 cleans raw caption XML with
   `xml.replace(/<[^>]+>/g, ' ').replace(/\s+/g, ' ').trim()`; the three
   replace passes are embedded below.  Both `generateContent` calls of
   this variant are outside any local try/catch, so their rejections hit
   the outer catch (a generic 500), and its audio path has no size check
   at all — only the yt-dlp strategy caps size, at the source, via
   `--max-filesize 19M`.
   =================================================================== -/

/-- Negation of the tag terminator, the class `[^>]`. -/
def noTagEnd (d : Char) : Bool := !(d = '>')

/-- One global-replace pass of `/<[^>]+>/g` by a space.  A candidate match at
    `<` runs to the next `>` provided at least one character lies between; an
    unmatched `<` is copied.  The fuel argument (always the list length, which
    bounds the number of steps) only makes the recursion structural. -/
def stripTagsAux : Nat → List Char → List Char
  | 0, l => l
  | _ + 1, [] => []
  | fuel + 1, c :: rest =>
    if c = '<' then
      match rest.takeWhile noTagEnd, rest.dropWhile noTagEnd with
      | _ :: _, _ :: rest2 => ' ' :: stripTagsAux fuel rest2
      | _, _ => c :: stripTagsAux fuel rest
    else c :: stripTagsAux fuel rest

/-- The `replace(/<[^>]+>/g, ' ')` pass. -/
def stripTags (l : List Char) : List Char := stripTagsAux l.length l

/-- The `replace(/\s+/g, ' ')` pass: each maximal whitespace run becomes one
    space (the flag remembers whether the previous character was whitespace). -/
def collapseWsAux : Bool → List Char → List Char
  | _, [] => []
  | prevSpace, c :: rest =>
    if isSpace c then
      if prevSpace then collapseWsAux true rest
      else ' ' :: collapseWsAux true rest
    else c :: collapseWsAux false rest

/-- The `replace(/\s+/g, ' ')` pass. -/
def collapseWs (l : List Char) : List Char := collapseWsAux false l

/-- The `.trim()` call. -/
def trimWs (l : List Char) : List Char :=
  ((l.dropWhile isSpace).reverse.dropWhile isSpace).reverse

/-- The caption-XML cleanup of strategy 3. -/
def cleanCaptionXml (s : String) : String :=
  String.mk (trimWs (collapseWs (stripTags s.data)))

/-- One entry of `player_response.captions…captionTracks`. -/
structure CaptionTrack where
  languageCode : String
  baseUrl : String
deriving Repr, DecidableEq

/-- The resolved effects of one request to variant V1. -/
structure V1Env where
  /-- The `url` field of the request body (`""` models missing/falsy). -/
  url : String
  /-- Whether `process.env.GEMINI_API_KEY` is set. -/
  hasKey : Bool
  /-- Strategy 1, `YoutubeTranscript.fetchTranscript`: segment texts or a
      rejection. -/
  m1 : Except String (List String)
  /-- Result of `fs.existsSync(YTDLP_PATH)`. -/
  ytdlpExists : Bool
  /-- Strategy 2, `fetchSubtitleWithYtDlp` (it resolves `""` on its internal
      failure paths; a rejection is caught by the caller). -/
  m2 : Except String String
  /-- Strategy 3, `ytdl.getInfo`: the caption-track list, when the metadata
      has one. -/
  m3info : Except String (Option (List CaptionTrack))
  /-- Strategy 3, the `fetch(track.baseUrl)` + `res.text()` step. -/
  fetchCaption : String → Except String String
  /-- Audio strategy 1, `downloadAudioYtDlp` (the subprocess enforces
      `--max-filesize 19M` at the source). -/
  a1 : Except String AudioBuf
  /-- Audio strategy 2, `downloadAudioYtdlCore` (30 s timeout, no size cap). -/
  a2 : Except String AudioBuf
  /-- Abstract `JSON.parse` projected to the keys read downstream. -/
  parse : String → Option AiData
  /-- The text-mode `model.generateContent(prompt)` call. -/
  genText : String → Except String String
  /-- The audio-mode `model.generateContent([prompt, inlineData])` call. -/
  genAudio : String → AudioBuf → Except String String

/-- What variant V1 did on the way to its response. -/
structure V1Trace where
  /-- Whether strategy 1 ran. -/
  m1Tried : Bool := false
  /-- Whether strategy 2 ran. -/
  m2Tried : Bool := false
  /-- Whether strategy 3 ran. -/
  m3Tried : Bool := false
  /-- Whether the audio phase was entered. -/
  audioPhase : Bool := false
  /-- Whether audio strategy 1 ran. -/
  a1Tried : Bool := false
  /-- Whether audio strategy 2 ran. -/
  a2Tried : Bool := false
  /-- The prompt passed to the text-mode `generateContent`, when that ran. -/
  textPrompt? : Option String := none
  /-- The audio payload passed to the audio-mode `generateContent`, when that
      ran. -/
  audioSent? : Option AudioBuf := none
deriving Repr, DecidableEq

/-- The V1 text prompt up to `${transcriptText.substring(0, 20000)}`. -/
def v1PromptPre : String :=
  "Analyze this YouTube transcript and generate:\n            1. A concise summary (2-3 paragraphs).\n            2. Structured study notes in markdown.\n            \n            Transcript:\n            "

/-- The V1 text prompt after the interpolated transcript. -/
def v1PromptPost : String :=
  "\n            \n            Format as JSON: \x7b\"summary\": \"...\", \"notes\": \"...\"\x7d"

/-- The V1 text-mode prompt (a 20,000-character budget). -/
def v1TextPrompt (t : String) : String := v1PromptPre ++ t.take 20000 ++ v1PromptPost

/-- The V1 audio-mode prompt. -/
def v1AudioPrompt : String :=
  "Listen to this audio and generate: 1. Verbatim transcript (key \x27transcript\x27). 2. Summary (key \x27summary\x27). 3. Study notes in markdown (key \x27notes\x27). Format as JSON."

/-- The generic message of the outer catch of V1. -/
def v1ServerErrMsg : String := "Server encountered an error processing this request."

/-- The V1 message when both audio strategies fail. -/
def v1ExhaustedMsg : String :=
  "Unable to extract content from this video. It might be too long, private, or age-restricted. Try a shorter video with subtitles."

/-- The `transcriptText` local of V1 after strategy 1. -/
def v1T1 (env : V1Env) : String :=
  match env.m1 with
  | .ok segs => if 0 < segs.length then String.intercalate "\n" segs else ""
  | .error _ => ""

/-- The `transcriptText` local of V1 after the guarded strategy 2 (the catch
    leaves the previous value in place). -/
def v1T2 (env : V1Env) : String :=
  if v1T1 env = "" ∧ env.ytdlpExists = true then
    match env.m2 with
    | .ok s => s
    | .error _ => v1T1 env
  else v1T1 env

/-- The `transcriptText` local of V1 after the guarded strategy 3. -/
def v1T3 (env : V1Env) : String :=
  if v1T2 env = "" then
    match env.m3info with
    | .error _ => v1T2 env
    | .ok none => v1T2 env
    | .ok (some tracks) =>
      match tracks with
      | [] => v1T2 env
      | t0 :: _ =>
        let track := (tracks.find? (fun tk => tk.languageCode == "en")).getD t0
        match env.fetchCaption track.baseUrl with
        | .ok xml => cleanCaptionXml xml
        | .error _ => v1T2 env
  else v1T2 env

/-- The `audioBuffer` local of V1 after the guarded audio strategy 1. -/
def v1Buf1 (env : V1Env) : Option AudioBuf :=
  if env.ytdlpExists then
    match env.a1 with
    | .ok b => some b
    | .error _ => none
  else none

/-- The `audioBuffer` local of V1 after the guarded audio strategy 2. -/
def v1Buf (env : V1Env) : Option AudioBuf :=
  match v1Buf1 env with
  | some b => some b
  | none =>
    match env.a2 with
    | .ok b => some b
    | .error _ => none

/-- The tail of V1's audio phase: the response, with the payload passed to
    `generateContent` (when the call was reached).  Note: no size check. -/
def v1AudioResp (env : V1Env) : RouteResponse × Option AudioBuf :=
  match v1Buf env with
  | some b =>
    match env.genAudio v1AudioPrompt b with
    | .ok raw =>
      let ai := extractJsonV1 env.parse raw
      ({ status := 200, summary? := ai.summary?, notes? := ai.notes?,
         transcript? := ai.transcript? }, some b)
    | .error _ => ({ status := 500, error? := some v1ServerErrMsg }, some b)
  | none => ({ status := 500, error? := some v1ExhaustedMsg }, none)

/-- The `POST` handler of variant V1. -/
def v1POST (env : V1Env) : RouteResponse × V1Trace :=
  if env.url = "" then ({ status := 400, error? := some "URL is required" }, {})
  else if env.hasKey = false then
    ({ status := 500, error? := some "Gemini API Key missing" }, {})
  else if (extractVideoId env.url).getD "" = "" then
    ({ status := 400, error? := some "Invalid YouTube URL" }, {})
  else
    let t := v1T3 env
    let tr0 : V1Trace :=
      { m1Tried := true
        m2Tried := decide (v1T1 env = "") && env.ytdlpExists
        m3Tried := decide (v1T2 env = "") }
    if t ≠ "" ∧ 100 < t.length then
      let prompt := v1TextPrompt t
      let tr := { tr0 with textPrompt? := some prompt }
      match env.genText prompt with
      | .ok raw =>
        let ai := extractJsonV1 env.parse raw
        ({ status := 200, summary? := ai.summary?, notes? := ai.notes?,
           transcript? := some t }, tr)
      | .error _ => ({ status := 500, error? := some v1ServerErrMsg }, tr)
    else
      let st := v1AudioResp env
      (st.1,
       { tr0 with
         audioPhase := true
         a1Tried := env.ytdlpExists
         a2Tried := (v1Buf1 env).isNone
         audioSent? := st.2 })

/- ===================================================================
   5. Route variant V3: one transcript strategy, one ytdl-core audio
      fallback — and a text-mode catch that answers with the default
      200 status, carrying the transcript next to placeholder fields.
   =================================================================== -/

/-- The resolved effects of one request to variant V3. -/
structure V3Env where
  /-- The `url` field of the request body (`""` models missing/falsy). -/
  url : String
  /-- Whether `process.env.GEMINI_API_KEY` is set. -/
  hasKey : Bool
  /-- Strategy 1, `YoutubeTranscript.fetchTranscript`. -/
  m1 : Except String (List String)
  /-- Abstract `JSON.parse` projected to the keys read downstream. -/
  parse : String → Option AiData
  /-- The text-mode `model.generateContent(prompt)` call. -/
  genText : String → Except String String
  /-- Result of `downloadAudioStream(url)` (30 s timeout rejects). -/
  download : Except String AudioBuf
  /-- The audio-mode `model.generateContent([prompt, inlineData])` call. -/
  genAudio : String → AudioBuf → Except String String

/-- The V3 text prompt up to `${transcriptText.substring(0, 15000)}`. -/
def v3PromptPre : String :=
  "\n                Analyze this YouTube transcript and generate:\n                1. A concise summary (2-3 paragraphs).\n                2. Structured study notes in markdown.\n                \n                Transcript:\n                "

/-- The V3 text prompt after the interpolated transcript. -/
def v3PromptPost : String :=
  "\n                \n                Format as JSON: \x7b\"summary\": \"...\", \"notes\": \"...\"\x7d\n                "

/-- The V3 text-mode prompt (a 15,000-character budget). -/
def v3TextPrompt (t : String) : String := v3PromptPre ++ t.take 15000 ++ v3PromptPost

/-- The V3 audio-mode prompt. -/
def v3AudioPrompt : String :=
  "Listen to this audio and generate: 1. A verbatim transcript (key \x27transcript\x27). 2. A summary (key \x27summary\x27). 3. Study notes in markdown (key \x27notes\x27). Format as JSON."

/-- The V3 message when the audio fallback fails. -/
def v3AudioFailMsg : String :=
  "This video has no subtitles and audio extraction failed. Try a video with subtitles or a shorter one."

/-- The `transcriptText` local of V3 (its single strategy). -/
def v3TranscriptText (env : V3Env) : String :=
  match env.m1 with
  | .ok segs => if 0 < segs.length then String.intercalate "\n" segs else ""
  | .error _ => ""

/-- The `POST` handler of variant V3. -/
def v3POST (env : V3Env) : RouteResponse × RouteTrace :=
  if env.url = "" then ({ status := 400, error? := some "URL is required" }, {})
  else if env.hasKey = false then
    ({ status := 500, error? := some "Gemini API Key is not configured" }, {})
  else if (extractVideoId env.url).getD "" = "" then
    ({ status := 400, error? := some "Invalid YouTube URL" }, {})
  else
    let t := v3TranscriptText env
    let tr0 : RouteTrace := { fetchTried := true }
    if t ≠ "" ∧ 100 < t.length then
      let prompt := v3TextPrompt t
      let tr := { tr0 with textPrompt? := some prompt }
      match env.genText prompt with
      | .ok raw =>
        let ai := extractJsonV3 env.parse raw
        ({ status := 200, summary? := ai.summary?, notes? := ai.notes?,
           transcript? := some t }, tr)
      | .error _ =>
        ({ status := 200, summary? := some "⚠️ Summary generation failed.",
           notes? := some "N/A", transcript? := some t }, tr)
    else
      let tr := { tr0 with audioBranch := true }
      match env.download with
      | .error _ => ({ status := 500, error? := some v3AudioFailMsg }, tr)
      | .ok buf =>
        let tr2 := { tr with audioSent? := some buf }
        match env.genAudio v3AudioPrompt buf with
        | .ok raw =>
          let ai := extractJsonV3 env.parse raw
          ({ status := 200, summary? := ai.summary?, notes? := ai.notes?,
             transcript? := ai.transcript? }, tr2)
        | .error _ => ({ status := 500, error? := some v3AudioFailMsg }, tr2)

/- ===================================================================
   6. The client retry/cooldown controller, `youtube-summarizer.tsx`.

   State: the `error`, `loading`, `isRetrying` and `retryCountdown`
   React states.  The `useEffect` timer is modelled by a step function
   `tickUi`: with `retryCountdown = some (n+1)` one second elapsing
   decrements the countdown; with `some 0` the effect calls
   `handleSummarize(true)` (whose synchronous head is `beginSubmit`),
   which is the automatic retry submission; with `none` no timer is
   scheduled (`clearTimeout` ran) and nothing happens.
   =================================================================== -/

/-- The client component's state variables. -/
structure UiState where
  loading : Bool := false
  error : String := ""
  retryCountdown : Option Nat := none
  isRetrying : Bool := false
deriving Repr, DecidableEq

/-- The `cancelRetry` click handler. -/
def cancelRetry (s : UiState) : UiState :=
  { s with retryCountdown := none, loading := false, isRetrying := false,
           error := "Retry cancelled." }

/-- The synchronous head of `handleSummarize(isRetry)`: clear the error on a
    fresh submission, set `loading`, clear the countdown, record retry mode. -/
def beginSubmit (s : UiState) (isRetry : Bool) : UiState :=
  { s with error := if isRetry then s.error else "",
           loading := true, retryCountdown := none, isRetrying := isRetry }

/-- One timer step; the boolean reports whether an automatic retry submission
    fired during this step. -/
def tickUi (s : UiState) : UiState × Bool :=
  match s.retryCountdown with
  | some (n + 1) => ({ s with retryCountdown := some n }, false)
  | some 0 => (beginSubmit s true, true)
  | none => (s, false)

/-- Whether an automatic retry submission fires within the next `k` steps. -/
def firesWithin : Nat → UiState → Bool
  | 0, _ => false
  | k + 1, s => (tickUi s).2 || firesWithin k (tickUi s).1

/- ===================================================================
   7. Concrete fixtures used by closed instances of the theorems below.
   =================================================================== -/

/-- A canonical watch link. -/
def watchUrl : String := "https://www.youtube.com/watch?v=dQw4w9WgXcQ"

/-- A transcript fetch result whose joined text stays under 100 characters. -/
def shortSegs : List String := ["too sparse to summarize"]

/-- A transcript fetch result whose joined text exceeds 100 characters. -/
def longSegs : List String :=
  ["This transcript segment is part of a test fixture for the summarize pipeline,",
   "and joining its two segments comfortably exceeds one hundred characters."]

/-- A well-formed parse result. -/
def okAi : AiData :=
  { summary? := some "A summary.", notes? := some "Some notes.", transcript? := none }

/-- An audio payload below the ceiling. -/
def smallBuf : AudioBuf := { len := 5 * 1024 * 1024, content := 1 }

/-- An audio payload exceeding the 19 MiB ceiling by one byte. -/
def bigBuf : AudioBuf := { len := 19 * 1024 * 1024 + 1, content := 2 }

/-- A canonical-route environment where every effect fails. -/
def baseRouteEnv : RouteEnv :=
  { url := watchUrl
    hasKey := true
    fetchTranscript := .error "fetch failed"
    parse := fun _ => none
    genText := fun _ => .error "unavailable"
    validateURL := false
    getInfo := .error "unavailable"
    chooseFormat := none
    download := .error "unavailable"
    genAudio := fun _ _ => .error "unavailable" }

/-- Canonical route, short transcript acquired. -/
def shortRouteEnv : RouteEnv := { baseRouteEnv with fetchTranscript := .ok shortSegs }

/-- Canonical route, usable transcript acquired, model succeeds. -/
def textRouteEnv : RouteEnv :=
  { baseRouteEnv with
    fetchTranscript := .ok longSegs
    genText := fun _ => .ok "no json in this answer"
    parse := fun _ => some okAi }

/-- Canonical route, usable transcript acquired, model call rejected. -/
def genFailRouteEnv : RouteEnv :=
  { baseRouteEnv with
    fetchTranscript := .ok longSegs
    genText := fun _ => .error "model exploded" }

/-- Canonical route, no transcript, audio path fully available. -/
def audioRouteEnv : RouteEnv :=
  { baseRouteEnv with
    validateURL := true
    getInfo := .ok ()
    chooseFormat := some ()
    download := .ok smallBuf
    genAudio := fun _ _ => .ok "plain text from the model" }

/-- Canonical route, audio path yielding an oversized payload. -/
def bigAudioRouteEnv : RouteEnv := { audioRouteEnv with download := .ok bigBuf }

/-- Canonical route, a reference with no extractable identifier. -/
def noIdRouteEnv : RouteEnv := { baseRouteEnv with url := "https://example.com/videos" }

/-- A V1 environment where every effect fails. -/
def baseV1Env : V1Env :=
  { url := watchUrl
    hasKey := true
    m1 := .error "fail"
    ytdlpExists := false
    m2 := .error "fail"
    m3info := .error "fail"
    fetchCaption := fun _ => .error "fail"
    a1 := .error "fail"
    a2 := .error "fail"
    parse := fun _ => none
    genText := fun _ => .error "fail"
    genAudio := fun _ _ => .error "fail" }

/-- A transcript payload longer than 100 characters. -/
def longTranscript : String :=
  "In this video we walk through the entire summarize pipeline, from transcript acquisition to structured study notes, step by step."

/-- V1: strategy 1 fails, strategy 2 usable, model succeeds. -/
def m2WinsV1Env : V1Env :=
  { baseV1Env with
    m1 := .error "no captions"
    ytdlpExists := true
    m2 := .ok longTranscript
    genText := fun _ => .ok "no json in this answer" }

/-- V1: strategy 1 returns a short non-empty payload, strategy 2 would be
    usable. -/
def shortStopV1Env : V1Env :=
  { baseV1Env with
    m1 := .ok ["short but nonempty"]
    ytdlpExists := true
    m2 := .ok longTranscript }

/-- V1: no transcript, yt-dlp absent, ytdl-core audio fallback returns an
    oversized payload, model call succeeds. -/
def bigAudioV1Env : V1Env :=
  { baseV1Env with
    a2 := .ok bigBuf
    genAudio := fun _ _ => .ok "raw model text" }

/-- V1, a reference with no extractable identifier. -/
def noIdV1Env : V1Env := { baseV1Env with url := "https://example.com/videos" }

/-- A V3 environment: usable transcript, model call rejected. -/
def genFailV3Env : V3Env :=
  { url := watchUrl
    hasKey := true
    m1 := .ok longSegs
    parse := fun _ => none
    genText := fun _ => .error "model exploded"
    download := .error "fail"
    genAudio := fun _ _ => .error "fail" }

/-- The controller mid-cooldown at countdown 12 (the spec's scenario). -/
def cooldown12 : UiState :=
  { loading := true, error := "", retryCountdown := some 12, isRetrying := false }

/- ===================================================================
   Theorems.  First: behaviour of the identifier extractor on the
   recognized reference shapes (claim C8).
   =================================================================== -/

@[simp] theorem pOr_some (r : List Char) (b : Option (List Char)) :
    pOr (some r) b = some r := rfl

@[simp] theorem pOr_none (b : Option (List Char)) : pOr none b = b := rfl

/-- A character of the identifier alphabet differs from any character
    outside it. -/
theorem idChar_ne {c : Char} (h : isIdChar c = true) {x : Char} (hx : isIdChar x = false) :
    ¬(c = x) := by
  intro he
  rw [he, hx] at h
  cases h

/-- Identifier characters are not whitespace. -/
theorem idChar_not_space {c : Char} (h : isIdChar c = true) : isSpace c = false := by
  simp only [isSpace, Bool.or_eq_false_iff, decide_eq_false_iff_not]
  exact ⟨⟨⟨⟨⟨idChar_ne h (x := ' ') (by decide), idChar_ne h (x := '\t') (by decide)⟩,
    idChar_ne h (x := '\n') (by decide)⟩, idChar_ne h (x := '\r') (by decide)⟩,
    idChar_ne h (x := '\x0b') (by decide)⟩, idChar_ne h (x := '\x0c') (by decide)⟩

/-- Identifier characters lie in the class `[^\/\n\s]`. -/
theorem idChar_notSlashSpace {c : Char} (h : isIdChar c = true) : notSlashSpace c = true := by
  simp only [notSlashSpace, idChar_not_space h, Bool.not_false, Bool.and_true,
    Bool.not_eq_true', decide_eq_false_iff_not]
  exact idChar_ne h (x := '/') (by decide)

/-- Identifier characters lie in the class `\S`. -/
theorem idChar_notSpace {c : Char} (h : isIdChar c = true) : notSpace c = true := by
  simp only [notSpace, idChar_not_space h, Bool.not_false]

/-- Identifier characters lie outside the class `[?&]`. -/
theorem idChar_not_qa {c : Char} (h : isIdChar c = true) : isQA c = false := by
  simp only [isQA, Bool.or_eq_false_iff, decide_eq_false_iff_not]
  exact ⟨idChar_ne h (x := '?') (by decide), idChar_ne h (x := '&') (by decide)⟩

/-- No slash occurs in an identifier token. -/
theorem id_token_no_slash {t : List Char} (hid : ∀ c ∈ t, isIdChar c = true) : '/' ∉ t :=
  fun hmem => idChar_ne (hid _ hmem) (x := '/') (by decide) rfl

/-- Take-exactly-n succeeds on a length-n block of the class followed by
    anything, consuming exactly the block. -/
theorem takeCls_append {p : Char → Bool} :
    ∀ (t r : List Char), (∀ c ∈ t, p c = true) →
      takeCls p t.length (t ++ r) = some (t, r)
  | [], _, _ => rfl
  | c :: t, r, h => by
    have hc : p c = true := h c (List.mem_cons_self c t)
    have ht := takeCls_append t r (fun d hd => h d (List.mem_cons_of_mem c hd))
    simp [takeCls, hc, ht]

/-- The capture group succeeds on an 11-character identifier token followed
    by anything, returning exactly the token. -/
theorem capK_append {t : List Char} (r : List Char) (h11 : t.length = 11)
    (hid : ∀ c ∈ t, isIdChar c = true) : capK (t ++ r) = some t := by
  have h := takeCls_append (p := isIdChar) t r hid
  rw [h11] at h
  simp [capK, h]

/-- A greedy class star whose continuation first demands a slash fails
    outright on slash-free input. -/
theorem starCls_slash_none {p : Char → Bool} {k : List Char → Option (List Char)} :
    ∀ (l : List Char), '/' ∉ l →
      starCls p l (fun l1 => matchLit ['/'] l1 k) = none
  | [], _ => rfl
  | c :: l, h => by
    have hc : ¬(c = '/') := fun hq => h (hq ▸ List.mem_cons_self c l)
    have hl : '/' ∉ l := fun hq => h (List.mem_cons_of_mem c hq)
    have ih := starCls_slash_none (p := p) (k := k) l hl
    by_cases hp : p c = true
    · simp [starCls, hp, ih, matchLit, hc]
    · simp only [Bool.not_eq_true] at hp
      simp [starCls, hp, matchLit, hc]

/-- Same for the greedy plus. -/
theorem plusCls_slash_none {p : Char → Bool} {k : List Char → Option (List Char)}
    (l : List Char) (h : '/' ∉ l) :
    plusCls p l (fun l1 => matchLit ['/'] l1 k) = none := by
  match l with
  | [] => rfl
  | c :: l' =>
    have hl : '/' ∉ l' := fun hq => h (List.mem_cons_of_mem c hq)
    by_cases hp : p c = true
    · simp [plusCls, hp, starCls_slash_none l' hl]
    · simp only [Bool.not_eq_true] at hp
      simp [plusCls, hp]

/-- A match at the current start position settles the whole scan. -/
theorem scanId_cons_some {c : Char} {l r : List Char}
    (h : pAt (c :: l) = some r) : scanId (c :: l) = some r := by
  simp only [scanId, h]

/-- Host stage on `youtube.com/watch?v=` followed by a token and a slash-free
    query suffix. -/
theorem pHost_watch (t q : List Char) (hq : '/' ∉ q) (h11 : t.length = 11)
    (hid : ∀ c ∈ t, isIdChar c = true) :
    pHost ('y' :: 'o' :: 'u' :: 't' :: 'u' :: 'b' :: 'e' :: '.' :: 'c' :: 'o' :: 'm' :: '/' :: 'w' :: 'a' :: 't' :: 'c' :: 'h' :: '?' :: 'v' :: '=' ::(t ++ q)) capK = some t := by
  have hcap : capK (t ++ q) = some t := capK_append q h11 hid
  have hslash : ('/' : Char) ∉ ('w' :: 'a' :: 't' :: 'c' :: 'h' :: '?' :: 'v' :: '=' ::(t ++ q)) := by
    intro hmem
    simp only [List.mem_cons, List.mem_append] at hmem
    rcases hmem with h|h|h|h|h|h|h|h|h
    · exact absurd h (by decide)
    · exact absurd h (by decide)
    · exact absurd h (by decide)
    · exact absurd h (by decide)
    · exact absurd h (by decide)
    · exact absurd h (by decide)
    · exact absurd h (by decide)
    · exact absurd h (by decide)
    rcases h with h | h
    · exact id_token_no_slash hid h
    · exact hq h
  have halt1 : pAlt1 ('w' :: 'a' :: 't' :: 'c' :: 'h' :: '?' :: 'v' :: '=' ::(t ++ q)) capK = none :=
    plusCls_slash_none _ hslash
  have halt2 : pAlt2 ('w' :: 'a' :: 't' :: 'c' :: 'h' :: '?' :: 'v' :: '=' ::(t ++ q)) capK = none := rfl
  have halt3 : pAlt3 ('w' :: 'a' :: 't' :: 'c' :: 'h' :: '?' :: 'v' :: '=' ::(t ++ q)) capK = some t := by
    simp [pAlt3, lazyCls, matchLit, isQA, notSpace, isSpace, hcap]
  simp [pHost, matchLit, halt1, halt2, halt3]

/-- Host stage on `youtu.be/` followed by a token and any suffix. -/
theorem pHost_short (t q : List Char) (h11 : t.length = 11)
    (hid : ∀ c ∈ t, isIdChar c = true) :
    pHost ('y' :: 'o' :: 'u' :: 't' :: 'u' :: '.' :: 'b' :: 'e' :: '/' ::(t ++ q)) capK = some t := by
  have hcap : capK (t ++ q) = some t := capK_append q h11 hid
  simp [pHost, matchLit, hcap]

/-- Slash-freeness of a token-plus-suffix block. -/
theorem token_suffix_no_slash {t q : List Char} (hid : ∀ c ∈ t, isIdChar c = true)
    (hq : '/' ∉ q) : '/' ∉ t ++ q := by
  intro hmem
  rcases List.mem_append.mp hmem with h | h
  · exact id_token_no_slash hid h
  · exact hq h

/-- Host stage on `youtube.com/embed/` followed by a token and a slash-free
    suffix. -/
theorem pHost_embed (t q : List Char) (hq : '/' ∉ q) (h11 : t.length = 11)
    (hid : ∀ c ∈ t, isIdChar c = true) :
    pHost ('y' :: 'o' :: 'u' :: 't' :: 'u' :: 'b' :: 'e' :: '.' :: 'c' :: 'o' :: 'm' :: '/' :: 'e' :: 'm' :: 'b' :: 'e' :: 'd' :: '/' ::(t ++ q)) capK = some t := by
  obtain ⟨c, t', rfl⟩ : ∃ c t', t = c :: t' := by
    cases t with
    | nil => simp at h11
    | cons c t' => exact ⟨c, t', rfl⟩
  have hcap : capK (c :: (t' ++ q)) = some (c :: t') := by
    simpa using capK_append q h11 hid
  have hc : notSpace c = true := idChar_notSpace (hid c (List.mem_cons_self c t'))
  have hfree : '/' ∉ t' ++ q :=
    token_suffix_no_slash (fun d hd => hid d (List.mem_cons_of_mem c hd)) hq
  have halt1 : pAlt1 ('e' :: 'm' :: 'b' :: 'e' :: 'd' :: '/' ::c::(t' ++ q)) capK = none := by
    simp [pAlt1, plusCls, starCls, matchLit, notSlashSpace, isSpace, hc,
      starCls_slash_none (t' ++ q) hfree]
  have halt2 : pAlt2 ('e' :: 'm' :: 'b' :: 'e' :: 'd' :: '/' ::c::(t' ++ q)) capK = some (c :: t') := by
    simp [pAlt2, matchLit, hcap]
  simp [pHost, matchLit, halt1, halt2]

/-- Host stage on `youtube.com/v/` followed by a token and a slash-free
    suffix. -/
theorem pHost_vpath (t q : List Char) (hq : '/' ∉ q) (h11 : t.length = 11)
    (hid : ∀ c ∈ t, isIdChar c = true) :
    pHost ('y' :: 'o' :: 'u' :: 't' :: 'u' :: 'b' :: 'e' :: '.' :: 'c' :: 'o' :: 'm' :: '/' :: 'v' :: '/' ::(t ++ q)) capK = some t := by
  obtain ⟨c, t', rfl⟩ : ∃ c t', t = c :: t' := by
    cases t with
    | nil => simp at h11
    | cons c t' => exact ⟨c, t', rfl⟩
  have hcap : capK (c :: (t' ++ q)) = some (c :: t') := by
    simpa using capK_append q h11 hid
  have hc : notSpace c = true := idChar_notSpace (hid c (List.mem_cons_self c t'))
  have hfree : '/' ∉ t' ++ q :=
    token_suffix_no_slash (fun d hd => hid d (List.mem_cons_of_mem c hd)) hq
  have halt1 : pAlt1 ('v' :: '/' ::c::(t' ++ q)) capK = none := by
    simp [pAlt1, plusCls, starCls, matchLit, notSlashSpace, isSpace, hc,
      starCls_slash_none (t' ++ q) hfree]
  have halt2 : pAlt2 ('v' :: '/' ::c::(t' ++ q)) capK = some (c :: t') := by
    simp [pAlt2, matchLit, hcap]
  simp [pHost, matchLit, halt1, halt2]

/-- Scheme-and-www wrapper: `https://www.` before any host-stage match. -/
theorem pAt_https_www {l r : List Char} (h : pHost l capK = some r) :
    pAt ('h' :: 't' :: 't' :: 'p' :: 's' :: ':' :: '/' :: '/' :: 'w' :: 'w' :: 'w' :: '.' ::l) = some r := by
  simp [pAt, pScheme, pWww, matchLit, h]

/-- Scheme wrapper: `https://` before a host-stage match starting at `y`. -/
theorem pAt_https {l r : List Char} (h : pHost ('y' ::l) capK = some r) :
    pAt ('h' :: 't' :: 't' :: 'p' :: 's' :: ':' :: '/' :: '/' :: 'y' ::l) = some r := by
  simp [pAt, pScheme, pWww, matchLit, h]

/-- Scheme wrapper: `http://` before a host-stage match starting at `y`. -/
theorem pAt_http {l r : List Char} (h : pHost ('y' ::l) capK = some r) :
    pAt ('h' :: 't' :: 't' :: 'p' :: ':' :: '/' :: '/' :: 'y' ::l) = some r := by
  simp [pAt, pScheme, pWww, matchLit, h]

/-- Bare `www.` wrapper before a host-stage match starting at `y`. -/
theorem pAt_www {l r : List Char} (h : pHost ('y' ::l) capK = some r) :
    pAt ('w' :: 'w' :: 'w' :: '.' :: 'y' ::l) = some r := by
  simp [pAt, pScheme, pWww, matchLit, h]

/-- No wrapper at all before a host-stage match starting at `y`. -/
theorem pAt_bare {l r : List Char} (h : pHost ('y' ::l) capK = some r) :
    pAt ('y' ::l) = some r := by
  simp [pAt, pScheme, pWww, matchLit, h]

/-- C8: for every 11-character token over the identifier alphabet, the
    extractor returns exactly that token — character case untouched — from
    each recognized reference shape (canonical watch link, short link, embed
    link, `/v/` link), regardless of scheme, `www.` prefix, or surrounding
    query parameters; being a plain function, it is pure and deterministic,
    so any two references of these shapes embedding the same token yield the
    identical identifier. -/
theorem c8_extractor_shape_invariance (t : String) (h11 : t.length = 11)
    (hid : ∀ c ∈ t.data, isIdChar c = true) :
    extractVideoId ("https://www.youtube.com/watch?v=" ++ t ++ "&t=42s") = some t ∧
    extractVideoId ("http://youtube.com/watch?v=" ++ t) = some t ∧
    extractVideoId ("www.youtube.com/watch?v=" ++ t ++ "&ab_channel=X") = some t ∧
    extractVideoId ("youtube.com/watch?v=" ++ t) = some t ∧
    extractVideoId ("https://youtu.be/" ++ t) = some t ∧
    extractVideoId ("https://youtu.be/" ++ t ++ "?si=AbC2") = some t ∧
    extractVideoId ("https://www.youtube.com/embed/" ++ t) = some t ∧
    extractVideoId ("http://youtube.com/v/" ++ t) = some t := by
  have h11' : t.data.length = 11 := h11
  refine ⟨?_, ?_, ?_, ?_, ?_, ?_, ?_, ?_⟩
  · have h := scanId_cons_some (pAt_https_www
      (pHost_watch t.data ('&' :: 't' :: '=' :: '4' :: '2' :: 's' ::[]) (by decide) h11' hid))
    show (scanId ("https://www.youtube.com/watch?v=" ++ t ++ "&t=42s").data).map
        (fun l => String.mk l) = some t
    rw [show ("https://www.youtube.com/watch?v=" ++ t ++ "&t=42s").data
      = 'h' :: 't' :: 't' :: 'p' :: 's' :: ':' :: '/' :: '/' :: 'w' :: 'w' :: 'w' :: '.' :: 'y' :: 'o' :: 'u' :: 't' :: 'u' :: 'b' :: 'e' :: '.' :: 'c' :: 'o' :: 'm' :: '/' :: 'w' :: 'a' :: 't' :: 'c' :: 'h' :: '?' :: 'v' :: '=' ::(t.data ++ ('&' :: 't' :: '=' :: '4' :: '2' :: 's' ::[])) from rfl, h]
    rfl
  · have h0 := pHost_watch t.data [] (by decide) h11' hid
    rw [List.append_nil] at h0
    have h := scanId_cons_some (pAt_http h0)
    show (scanId ("http://youtube.com/watch?v=" ++ t).data).map
        (fun l => String.mk l) = some t
    rw [show ("http://youtube.com/watch?v=" ++ t).data
      = 'h' :: 't' :: 't' :: 'p' :: ':' :: '/' :: '/' :: 'y' :: 'o' :: 'u' :: 't' :: 'u' :: 'b' :: 'e' :: '.' :: 'c' :: 'o' :: 'm' :: '/' :: 'w' :: 'a' :: 't' :: 'c' :: 'h' :: '?' :: 'v' :: '=' ::t.data from rfl, h]
    rfl
  · have h := scanId_cons_some (pAt_www
      (pHost_watch t.data ('&' :: 'a' :: 'b' :: '_' :: 'c' :: 'h' :: 'a' :: 'n' :: 'n' :: 'e' :: 'l' :: '=' :: 'X' ::[]) (by decide) h11' hid))
    show (scanId ("www.youtube.com/watch?v=" ++ t ++ "&ab_channel=X").data).map
        (fun l => String.mk l) = some t
    rw [show ("www.youtube.com/watch?v=" ++ t ++ "&ab_channel=X").data
      = 'w' :: 'w' :: 'w' :: '.' :: 'y' :: 'o' :: 'u' :: 't' :: 'u' :: 'b' :: 'e' :: '.' :: 'c' :: 'o' :: 'm' :: '/' :: 'w' :: 'a' :: 't' :: 'c' :: 'h' :: '?' :: 'v' :: '=' ::(t.data ++ ('&' :: 'a' :: 'b' :: '_' :: 'c' :: 'h' :: 'a' :: 'n' :: 'n' :: 'e' :: 'l' :: '=' :: 'X' ::[])) from rfl, h]
    rfl
  · have h0 := pHost_watch t.data [] (by decide) h11' hid
    rw [List.append_nil] at h0
    have h := scanId_cons_some (pAt_bare h0)
    show (scanId ("youtube.com/watch?v=" ++ t).data).map
        (fun l => String.mk l) = some t
    rw [show ("youtube.com/watch?v=" ++ t).data
      = 'y' :: 'o' :: 'u' :: 't' :: 'u' :: 'b' :: 'e' :: '.' :: 'c' :: 'o' :: 'm' :: '/' :: 'w' :: 'a' :: 't' :: 'c' :: 'h' :: '?' :: 'v' :: '=' ::t.data from rfl, h]
    rfl
  · have h0 := pHost_short t.data [] h11' hid
    rw [List.append_nil] at h0
    have h := scanId_cons_some (pAt_https h0)
    show (scanId ("https://youtu.be/" ++ t).data).map (fun l => String.mk l) = some t
    rw [show ("https://youtu.be/" ++ t).data
      = 'h' :: 't' :: 't' :: 'p' :: 's' :: ':' :: '/' :: '/' :: 'y' :: 'o' :: 'u' :: 't' :: 'u' :: '.' :: 'b' :: 'e' :: '/' ::t.data from rfl, h]
    rfl
  · have h := scanId_cons_some (pAt_https
      (pHost_short t.data ('?' :: 's' :: 'i' :: '=' :: 'A' :: 'b' :: 'C' :: '2' ::[]) h11' hid))
    show (scanId ("https://youtu.be/" ++ t ++ "?si=AbC2").data).map
        (fun l => String.mk l) = some t
    rw [show ("https://youtu.be/" ++ t ++ "?si=AbC2").data
      = 'h' :: 't' :: 't' :: 'p' :: 's' :: ':' :: '/' :: '/' :: 'y' :: 'o' :: 'u' :: 't' :: 'u' :: '.' :: 'b' :: 'e' :: '/' ::(t.data ++ ('?' :: 's' :: 'i' :: '=' :: 'A' :: 'b' :: 'C' :: '2' ::[])) from rfl, h]
    rfl
  · have h0 := pHost_embed t.data [] (by decide) h11' hid
    rw [List.append_nil] at h0
    have h := scanId_cons_some (pAt_https_www h0)
    show (scanId ("https://www.youtube.com/embed/" ++ t).data).map
        (fun l => String.mk l) = some t
    rw [show ("https://www.youtube.com/embed/" ++ t).data
      = 'h' :: 't' :: 't' :: 'p' :: 's' :: ':' :: '/' :: '/' :: 'w' :: 'w' :: 'w' :: '.' :: 'y' :: 'o' :: 'u' :: 't' :: 'u' :: 'b' :: 'e' :: '.' :: 'c' :: 'o' :: 'm' :: '/' :: 'e' :: 'm' :: 'b' :: 'e' :: 'd' :: '/' ::t.data from rfl, h]
    rfl
  · have h0 := pHost_vpath t.data [] (by decide) h11' hid
    rw [List.append_nil] at h0
    have h := scanId_cons_some (pAt_http h0)
    show (scanId ("http://youtube.com/v/" ++ t).data).map (fun l => String.mk l) = some t
    rw [show ("http://youtube.com/v/" ++ t).data
      = 'h' :: 't' :: 't' :: 'p' :: ':' :: '/' :: '/' :: 'y' :: 'o' :: 'u' :: 't' :: 'u' :: 'b' :: 'e' :: '.' :: 'c' :: 'o' :: 'm' :: '/' :: 'v' :: '/' ::t.data from rfl, h]
    rfl

/-- Closed instance of C8 at the token `dQw4w9WgXcQ`. -/
theorem c8_extractor_shape_invariance_witness :
    extractVideoId ("https://www.youtube.com/watch?v=" ++ "dQw4w9WgXcQ" ++ "&t=42s")
      = some "dQw4w9WgXcQ" ∧
    extractVideoId ("https://youtu.be/" ++ "dQw4w9WgXcQ") = some "dQw4w9WgXcQ" ∧
    extractVideoId ("https://www.youtube.com/embed/" ++ "dQw4w9WgXcQ") = some "dQw4w9WgXcQ" := by
  have h := c8_extractor_shape_invariance "dQw4w9WgXcQ" (by decide) (by decide)
  exact ⟨h.1, h.2.2.2.2.1, h.2.2.2.2.2.2.1⟩

/- ===================================================================
   Theorems about the response normalizer (claim C4).
   =================================================================== -/

/-- Dropping up to the first opening brace lands exactly on it. -/
theorem dropWhile_not_brace {a : List Char} (ha : '\x7b' ∉ a) (b : List Char) :
    (a ++ '\x7b' :: b).dropWhile (fun c => !(c = '\x7b')) = '\x7b' :: b := by
  induction a with
  | nil => simp [List.dropWhile]
  | cons x a ih =>
    have hx : ¬(x = '\x7b') := fun h => ha (h ▸ List.mem_cons_self x a)
    have ha' : '\x7b' ∉ a := fun h => ha (List.mem_cons_of_mem x h)
    simp [List.dropWhile, hx, ih ha']

/-- Dropping a block on which the predicate holds reaches the tail. -/
theorem dropWhile_append_of_all {p : Char → Bool} :
    ∀ (xs ys : List Char), (∀ x ∈ xs, p x = true) →
      (xs ++ ys).dropWhile p = ys.dropWhile p
  | [], _, _ => rfl
  | x :: xs, ys, h => by
    have hx : p x = true := h x (List.mem_cons_self x xs)
    have ih := dropWhile_append_of_all xs ys (fun d hd => h d (List.mem_cons_of_mem x hd))
    simp [List.dropWhile, hx, ih]

/-- Cutting after the last closing brace, phrased on the reversed list. -/
theorem revDropWhile_close {s z : List Char} (hz : '\x7d' ∉ z) :
    ((s ++ '\x7d' :: z).reverse.dropWhile (fun d => !(d = '\x7d'))).reverse
      = s ++ ['\x7d'] := by
  have hall : ∀ x ∈ z.reverse, (fun d => !(d = '\x7d')) x = true := by
    intro x hx
    have : x ∈ z := List.mem_reverse.mp hx
    simp only [Bool.not_eq_true', decide_eq_false_iff_not]
    exact fun he => hz (he ▸ this)
  rw [List.reverse_append, List.reverse_cons, List.append_assoc,
    dropWhile_append_of_all z.reverse _ hall]
  simp [List.dropWhile]

/-- C4: the normalizer hands `JSON.parse` exactly the span from the first
    opening brace to the last closing brace (given in decomposition form:
    `a` is the brace-free part before the first opening brace, `z` the
    close-free part after the last closing brace); with no opening brace the
    whole raw text is handed over; and whenever the parse fails — in
    particular for brace-free text — the result is the degraded object whose
    `notes` is the entire raw input and whose `summary` is the fixed
    placeholder.  `extractJson` is a total function, so no error can reach
    the caller. -/
theorem c4_normalizer_degraded_fallback (parse : String → Option AiData) (text : String) :
    (∀ a b m z, text.data = a ++ '\x7b' :: b → '\x7b' ∉ a →
        '\x7b' :: b = m ++ '\x7d' :: z → '\x7d' ∉ z →
        cleanedJson text = String.mk (m ++ ['\x7d'])) ∧
    ('\x7b' ∉ text.data → cleanedJson text = text) ∧
    (parse (cleanedJson text) = none →
        extractJson parse text =
          { summary? := some "I\x27ve generated the summary, but had trouble formatting it as JSON.",
            notes? := some text,
            transcript? := some "Transcript parsing failed." }) := by
  refine ⟨?_, ?_, ?_⟩
  · intro a b m z hdec ha hmz hz
    have hbcontains : '\x7d' ∈ b := by
      cases m with
      | nil =>
        cases hmz
      | cons x m' =>
        have hb : b = m' ++ '\x7d' :: z := (List.cons.injEq _ _ _ _ ▸ hmz).2
        rw [hb]
        exact List.mem_append.mpr (Or.inr (List.mem_cons_self _ _))
    unfold cleanedJson jsonSpan
    rw [hdec, dropWhile_not_brace ha b]
    dsimp only
    rw [if_pos hbcontains, hmz, revDropWhile_close hz]
  · intro h
    have hnil : text.data.dropWhile (fun c => !(c = '\x7b')) = [] := by
      rw [List.dropWhile_eq_nil_iff]
      intro x hx
      simp only [Bool.not_eq_true', decide_eq_false_iff_not]
      exact fun he => h (he ▸ hx)
    unfold cleanedJson jsonSpan
    rw [hnil]
  · intro hp
    unfold extractJson
    rw [hp]

/-- Closed instance of C4 on `x\x7by\x7dz` (span extraction) and on a
    brace-free text (degraded fallback). -/
theorem c4_normalizer_degraded_fallback_witness :
    cleanedJson "x\x7by\x7dz" = "\x7by\x7d" ∧
    cleanedJson "no braces at all" = "no braces at all" ∧
    extractJson (fun _ => none) "no braces at all" =
      { summary? := some "I\x27ve generated the summary, but had trouble formatting it as JSON.",
        notes? := some "no braces at all",
        transcript? := some "Transcript parsing failed." } := by
  refine ⟨?_, ?_, ?_⟩
  · exact (c4_normalizer_degraded_fallback (fun _ => none) "x\x7by\x7dz").1
      ['x'] ('y' :: '\x7d' :: 'z' ::[]) ('\x7b' :: 'y' ::[]) ['z'] rfl (by decide) rfl (by decide)
  · exact (c4_normalizer_degraded_fallback (fun _ => none) "no braces at all").2.1 (by decide)
  · exact (c4_normalizer_degraded_fallback (fun _ => none) "no braces at all").2.2 rfl

/- ===================================================================
   Branch lemmas for the three route models.
   =================================================================== -/

/-- A string longer than 100 characters is not empty. -/
theorem long_ne_empty {t : String} (h : 100 < t.length) : t ≠ "" :=
  fun he => absurd (he ▸ h) (by decide)

/-- With URL and key present and no usable transcript, `route.ts` runs its
    audio-fallback block and nothing else. -/
theorem routePOST_audio (env : RouteEnv) (hurl : env.url ≠ "") (hkey : env.hasKey = true)
    (hshort : ¬(100 < (routeTranscriptText env).length)) :
    routePOST env =
      ((routeAudioStage env).1,
       { fetchTried := !(routeVideoId env = ""), audioBranch := true,
         audioSent? := (routeAudioStage env).2 }) := by
  have hc : ¬(routeTranscriptText env ≠ "" ∧ 100 < (routeTranscriptText env).length) :=
    fun h => hshort h.2
  simp only [routePOST, if_neg hurl, hkey]
  rw [if_neg (by simp)]
  rw [if_neg hc]

/-- With URL and key present and a usable transcript, `route.ts` runs the
    text-mode call on the truncated prompt and returns the full transcript. -/
theorem routePOST_text (env : RouteEnv) (hurl : env.url ≠ "") (hkey : env.hasKey = true)
    (hlong : 100 < (routeTranscriptText env).length) :
    routePOST env =
      ((match env.genText (textPrompt (routeTranscriptText env)) with
        | .ok raw =>
          { status := 200, summary? := (extractJson env.parse raw).summary?,
            notes? := (extractJson env.parse raw).notes?,
            transcript? := some (routeTranscriptText env) }
        | .error _ =>
          { status := 500,
            summary? := some "⚠️ **AI Summary Unavailable**\n\nWe encountered an error generating the summary.",
            notes? := some "Study notes are unavailable due to the AI error.",
            transcript? := some (routeTranscriptText env) }),
       { fetchTried := !(routeVideoId env = ""),
         textPrompt? := some (textPrompt (routeTranscriptText env)) }) := by
  have hc : routeTranscriptText env ≠ "" ∧ 100 < (routeTranscriptText env).length :=
    ⟨long_ne_empty hlong, hlong⟩
  simp only [routePOST, if_neg hurl, hkey]
  rw [if_neg (by simp)]
  rw [if_pos hc]
  cases hgt : env.genText (textPrompt (routeTranscriptText env)) with
  | error e => simp [hgt]
  | ok raw => simp [hgt]

/-- With URL, key and identifier present and no usable transcript, V1 runs
    its audio phase and nothing else. -/
theorem v1POST_audio (env : V1Env) (hurl : env.url ≠ "") (hkey : env.hasKey = true)
    (hvid : (extractVideoId env.url).getD "" ≠ "")
    (hshort : ¬(100 < (v1T3 env).length)) :
    v1POST env =
      ((v1AudioResp env).1,
       { m1Tried := true
         m2Tried := decide (v1T1 env = "") && env.ytdlpExists
         m3Tried := decide (v1T2 env = "")
         audioPhase := true
         a1Tried := env.ytdlpExists
         a2Tried := (v1Buf1 env).isNone
         audioSent? := (v1AudioResp env).2 }) := by
  have hc : ¬(v1T3 env ≠ "" ∧ 100 < (v1T3 env).length) := fun h => hshort h.2
  simp only [v1POST, if_neg hurl, hkey, if_neg hvid]
  rw [if_neg (by simp)]
  rw [if_neg hc]

/-- With URL, key and identifier present and a usable transcript, V1 runs the
    text-mode call on the truncated prompt and returns the full transcript. -/
theorem v1POST_text (env : V1Env) (hurl : env.url ≠ "") (hkey : env.hasKey = true)
    (hvid : (extractVideoId env.url).getD "" ≠ "")
    (hlong : 100 < (v1T3 env).length) :
    v1POST env =
      ((match env.genText (v1TextPrompt (v1T3 env)) with
        | .ok raw =>
          { status := 200, summary? := (extractJsonV1 env.parse raw).summary?,
            notes? := (extractJsonV1 env.parse raw).notes?,
            transcript? := some (v1T3 env) }
        | .error _ => { status := 500, error? := some v1ServerErrMsg }),
       { m1Tried := true
         m2Tried := decide (v1T1 env = "") && env.ytdlpExists
         m3Tried := decide (v1T2 env = "")
         textPrompt? := some (v1TextPrompt (v1T3 env)) }) := by
  have hc : v1T3 env ≠ "" ∧ 100 < (v1T3 env).length := ⟨long_ne_empty hlong, hlong⟩
  simp only [v1POST, if_neg hurl, hkey, if_neg hvid]
  rw [if_neg (by simp)]
  rw [if_pos hc]
  cases hgt : env.genText (v1TextPrompt (v1T3 env)) with
  | error e => simp [hgt]
  | ok raw => simp [hgt]

/-- With URL, key and identifier present, a usable transcript, and a rejected
    model call, V3 responds 200 with the transcript and placeholders. -/
theorem v3POST_textFail (env : V3Env) (hurl : env.url ≠ "") (hkey : env.hasKey = true)
    (hvid : (extractVideoId env.url).getD "" ≠ "")
    (hlong : 100 < (v3TranscriptText env).length)
    (e : String) (hgen : env.genText (v3TextPrompt (v3TranscriptText env)) = .error e) :
    v3POST env =
      ({ status := 200, summary? := some "⚠️ Summary generation failed.",
         notes? := some "N/A", transcript? := some (v3TranscriptText env) },
       { fetchTried := true,
         textPrompt? := some (v3TextPrompt (v3TranscriptText env)) }) := by
  have hc : v3TranscriptText env ≠ "" ∧ 100 < (v3TranscriptText env).length :=
    ⟨long_ne_empty hlong, hlong⟩
  simp only [v3POST, if_neg hurl, hkey, if_neg hvid]
  rw [if_neg (by simp)]
  rw [if_pos hc]
  simp [hgen]

/- ===================================================================
   Claims C1, C9, C10, C6, and the canonical-route halves of C3 / C5.
   =================================================================== -/

/-- C1: in the canonical route and in variant V1 alike, an acquired
    transcript of 100 characters or fewer is never processed in text mode —
    the handler proceeds to audio acquisition instead — and text mode runs
    only when the transcript length strictly exceeds 100. -/
theorem c1_transcript_usability_threshold (env : RouteEnv) (venv : V1Env)
    (hurl : env.url ≠ "") (hkey : env.hasKey = true)
    (hvurl : venv.url ≠ "") (hvkey : venv.hasKey = true)
    (hvid : (extractVideoId venv.url).getD "" ≠ "") :
    ((routeTranscriptText env).length ≤ 100 →
      (routePOST env).2.textPrompt? = none ∧ (routePOST env).2.audioBranch = true) ∧
    (∀ p, (routePOST env).2.textPrompt? = some p → 100 < (routeTranscriptText env).length) ∧
    ((v1T3 venv).length ≤ 100 →
      (v1POST venv).2.textPrompt? = none ∧ (v1POST venv).2.audioPhase = true) ∧
    (∀ p, (v1POST venv).2.textPrompt? = some p → 100 < (v1T3 venv).length) := by
  refine ⟨?_, ?_, ?_, ?_⟩
  · intro hle
    rw [routePOST_audio env hurl hkey (by omega)]
    exact ⟨rfl, rfl⟩
  · intro p hp
    by_cases hlong : 100 < (routeTranscriptText env).length
    · exact hlong
    · rw [routePOST_audio env hurl hkey hlong] at hp
      simp at hp
  · intro hle
    rw [v1POST_audio venv hvurl hvkey hvid (by omega)]
    exact ⟨rfl, rfl⟩
  · intro p hp
    by_cases hlong : 100 < (v1T3 venv).length
    · exact hlong
    · rw [v1POST_audio venv hvurl hvkey hvid hlong] at hp
      simp at hp

/-- Closed instance of C1: a 23-character transcript sends both handlers to
    the audio branch. -/
theorem c1_transcript_usability_threshold_witness :
    (routeTranscriptText shortRouteEnv).length ≤ 100 ∧
    (routePOST shortRouteEnv).2.textPrompt? = none ∧
    (routePOST shortRouteEnv).2.audioBranch = true ∧
    (v1POST shortStopV1Env).2.textPrompt? = none ∧
    (v1POST shortStopV1Env).2.audioPhase = true := by
  have h := c1_transcript_usability_threshold shortRouteEnv shortStopV1Env
    (by decide) rfl (by decide) rfl (by decide)
  refine ⟨by decide, (h.1 (by decide)).1, (h.1 (by decide)).2,
    ((h.2.2.1) (by decide)).1, ((h.2.2.1) (by decide)).2⟩

/-- C9: on the text-mode success path of the canonical route (15,000-character
    budget) and of variant V1 (20,000-character budget), the response's
    transcript field carries the full acquired transcript; the substring
    truncation shapes only the prompt sent to the model. -/
theorem c9_full_transcript_truncated_prompt (env : RouteEnv) (venv : V1Env)
    (hurl : env.url ≠ "") (hkey : env.hasKey = true)
    (hlong : 100 < (routeTranscriptText env).length)
    (raw : String) (hgen : env.genText (textPrompt (routeTranscriptText env)) = .ok raw)
    (hvurl : venv.url ≠ "") (hvkey : venv.hasKey = true)
    (hvid : (extractVideoId venv.url).getD "" ≠ "")
    (hvlong : 100 < (v1T3 venv).length)
    (vraw : String) (hvgen : venv.genText (v1TextPrompt (v1T3 venv)) = .ok vraw) :
    (routePOST env).1.transcript? = some (routeTranscriptText env) ∧
    (routePOST env).2.textPrompt? =
      some (textPromptPre ++ (routeTranscriptText env).take 15000 ++ textPromptPost) ∧
    (v1POST venv).1.transcript? = some (v1T3 venv) ∧
    (v1POST venv).2.textPrompt? =
      some (v1PromptPre ++ (v1T3 venv).take 20000 ++ v1PromptPost) := by
  rw [routePOST_text env hurl hkey hlong, v1POST_text venv hvurl hvkey hvid hvlong,
    hgen, hvgen]
  exact ⟨rfl, rfl, rfl, rfl⟩

/-- Closed instance of C9. -/
theorem c9_full_transcript_truncated_prompt_witness :
    (routePOST textRouteEnv).1.transcript? = some (routeTranscriptText textRouteEnv) ∧
    (v1POST m2WinsV1Env).1.transcript? = some (v1T3 m2WinsV1Env) := by
  have h := c9_full_transcript_truncated_prompt textRouteEnv m2WinsV1Env
    (by decide) rfl (by decide) "no json in this answer" rfl
    (by decide) rfl (by decide) (by decide) "no json in this answer" rfl
  exact ⟨h.1, h.2.2.1⟩

/-- C10: on the canonical route's audio path, when the model's raw output
    fails the JSON parse, the 200 response's transcript field is exactly the
    normalizer's fixed placeholder — the audio path returns the normalizer
    output without overriding it. -/
theorem c10_audio_parse_fail_placeholder (env : RouteEnv)
    (hurl : env.url ≠ "") (hkey : env.hasKey = true)
    (hshort : (routeTranscriptText env).length ≤ 100)
    (hvu : env.validateURL = true) (hinfo : env.getInfo = .ok ())
    (hfmt : env.chooseFormat = some ()) (buf : AudioBuf) (hdl : env.download = .ok buf)
    (hsize : ¬(mib19 < buf.len)) (raw : String)
    (hgen : env.genAudio audioPrompt buf = .ok raw)
    (hparse : env.parse (cleanedJson raw) = none) :
    (routePOST env).1.transcript? = some "Transcript parsing failed." ∧
    (routePOST env).1.status = 200 := by
  rw [routePOST_audio env hurl hkey (by omega)]
  simp [routeAudioStage, hvu, hinfo, hfmt, hdl, hsize, hgen, extractJson, hparse]

/-- Closed instance of C10. -/
theorem c10_audio_parse_fail_placeholder_witness :
    (routePOST audioRouteEnv).1.transcript? = some "Transcript parsing failed." ∧
    (routePOST audioRouteEnv).1.status = 200 :=
  c10_audio_parse_fail_placeholder audioRouteEnv (by decide) rfl (by decide)
    rfl rfl rfl smallBuf rfl (by decide) "plain text from the model" rfl rfl

/-- In the audio-fallback block of the canonical route, the model is only
    ever handed the very buffer the downloader produced, and only when it is
    within the ceiling. -/
theorem routeAudioStage_sent (env : RouteEnv) (b : AudioBuf)
    (h : (routeAudioStage env).2 = some b) :
    env.download = .ok b ∧ ¬(mib19 < b.len) := by
  by_cases hv : env.validateURL = false
  · simp [routeAudioStage, hv] at h
  cases hgi : env.getInfo with
  | error m => simp [routeAudioStage, hv, hgi] at h
  | ok u =>
    cases hcf : env.chooseFormat with
    | none => simp [routeAudioStage, hv, hgi, hcf] at h
    | some v =>
      cases hdl : env.download with
      | error m => simp [routeAudioStage, hv, hgi, hcf, hdl] at h
      | ok b2 =>
        by_cases hs : mib19 < b2.len
        · simp [routeAudioStage, hv, hgi, hcf, hdl, hs] at h
        · cases hga : env.genAudio audioPrompt b2 with
          | ok raw =>
            simp [routeAudioStage, hv, hgi, hcf, hdl, hs, hga] at h
            subst h
            exact ⟨rfl, hs⟩
          | error m =>
            simp [routeAudioStage, hv, hgi, hcf, hdl, hs, hga] at h
            subst h
            exact ⟨rfl, hs⟩

/-- Whole-handler version of the preceding lemma. -/
theorem routePOST_sent (env : RouteEnv) (b : AudioBuf)
    (h : (routePOST env).2.audioSent? = some b) :
    env.download = .ok b ∧ ¬(mib19 < b.len) := by
  by_cases hu : env.url = ""
  · rw [routePOST, if_pos hu] at h
    simp at h
  by_cases hk : env.hasKey = false
  · rw [routePOST, if_neg hu, if_pos hk] at h
    simp at h
  have hk' : env.hasKey = true := by
    revert hk
    cases env.hasKey <;> simp
  by_cases hlen : 100 < (routeTranscriptText env).length
  · rw [routePOST_text env hu hk' hlen] at h
    simp at h
  · rw [routePOST_audio env hu hk' hlen] at h
    exact routeAudioStage_sent env b h

/-- C3 (amended): in the canonical route, an audio payload over 19 MiB is
    rejected with the size-specific 400 before the model call, the model is
    never invoked on it, and whenever the model *is* invoked the payload is
    exactly the downloaded buffer, within the ceiling — never a truncation
    of it.  (In variant V1 the corresponding check is absent; see the
    counterexample.) -/
theorem c3_route_size_ceiling (env : RouteEnv)
    (hurl : env.url ≠ "") (hkey : env.hasKey = true)
    (hshort : (routeTranscriptText env).length ≤ 100)
    (hvu : env.validateURL = true) (hinfo : env.getInfo = .ok ())
    (hfmt : env.chooseFormat = some ()) (buf : AudioBuf) (hdl : env.download = .ok buf)
    (hbig : mib19 < buf.len) :
    (routePOST env).1.status = 400 ∧
    (routePOST env).1.error? = some tooLargeMsg ∧
    (routePOST env).2.audioSent? = none ∧
    (∀ env2 : RouteEnv, ∀ b, (routePOST env2).2.audioSent? = some b →
        env2.download = .ok b ∧ ¬(mib19 < b.len)) := by
  rw [routePOST_audio env hurl hkey (by omega)]
  refine ⟨?_, ?_, ?_, fun env2 b hb => routePOST_sent env2 b hb⟩ <;>
    simp [routeAudioStage, hvu, hinfo, hfmt, hdl, hbig]

/-- Closed instance of C3's route half: a 19 MiB + 1 byte payload is turned
    away, and a 5 MiB payload goes through untouched. -/
theorem c3_route_size_ceiling_witness :
    (routePOST bigAudioRouteEnv).1.status = 400 ∧
    (routePOST bigAudioRouteEnv).1.error? = some tooLargeMsg ∧
    (routePOST bigAudioRouteEnv).2.audioSent? = none ∧
    (audioRouteEnv.download = .ok smallBuf ∧ ¬(mib19 < smallBuf.len)) := by
  have h := c3_route_size_ceiling bigAudioRouteEnv (by decide) rfl (by decide)
    rfl rfl rfl bigBuf rfl (by decide)
  exact ⟨h.1, h.2.1, h.2.2.1, h.2.2.2 audioRouteEnv smallBuf rfl⟩

/-- C5 counterexample: on the canonical route, a syntactically valid but
    unrecognized reference (no 11-character identifier) is *not* rejected
    with an immediate 400 — the handler skips transcript acquisition but
    proceeds into the audio-acquisition branch and fails there with 500. -/
theorem c5_counterexample_route_no_reject :
    extractVideoId noIdRouteEnv.url = none ∧
    (routePOST noIdRouteEnv).2.audioBranch = true ∧
    (routePOST noIdRouteEnv).1.status = 500 ∧
    ¬((routePOST noIdRouteEnv).1.status = 400) := by
  exact ⟨by decide, rfl, rfl, by decide⟩

/-- C6: when a usable transcript was acquired and the model call then fails
    (for any reason, rate-limiting included), both cited handlers keep the
    transcript: the response body carries it together with the placeholder
    summary and notes and no error field — variant V3 as an HTTP 200
    degraded success, the canonical route with the same body shape under
    status 500. -/
theorem c6_degraded_response_keeps_transcript (env : RouteEnv) (venv : V3Env)
    (hurl : env.url ≠ "") (hkey : env.hasKey = true)
    (hlong : 100 < (routeTranscriptText env).length)
    (e : String) (hgen : env.genText (textPrompt (routeTranscriptText env)) = .error e)
    (hvurl : venv.url ≠ "") (hvkey : venv.hasKey = true)
    (hvid : (extractVideoId venv.url).getD "" ≠ "")
    (hvlong : 100 < (v3TranscriptText venv).length)
    (e3 : String) (hvgen : venv.genText (v3TextPrompt (v3TranscriptText venv)) = .error e3) :
    (routePOST env).1.transcript? = some (routeTranscriptText env) ∧
    (routePOST env).1.summary? =
      some "⚠️ **AI Summary Unavailable**\n\nWe encountered an error generating the summary." ∧
    (routePOST env).1.notes? = some "Study notes are unavailable due to the AI error." ∧
    (routePOST env).1.error? = none ∧ (routePOST env).1.status = 500 ∧
    (v3POST venv).1 =
      { status := 200, summary? := some "⚠️ Summary generation failed.",
        notes? := some "N/A", transcript? := some (v3TranscriptText venv) } := by
  rw [routePOST_text env hurl hkey hlong,
    v3POST_textFail venv hvurl hvkey hvid hvlong e3 hvgen, hgen]
  exact ⟨rfl, rfl, rfl, rfl, rfl, rfl⟩

/-- Closed instance of C6. -/
theorem c6_degraded_response_keeps_transcript_witness :
    (routePOST genFailRouteEnv).1.transcript? = some (routeTranscriptText genFailRouteEnv) ∧
    (v3POST genFailV3Env).1.transcript? = some (v3TranscriptText genFailV3Env) ∧
    (v3POST genFailV3Env).1.status = 200 := by
  have h := c6_degraded_response_keeps_transcript genFailRouteEnv genFailV3Env
    (by decide) rfl (by decide) "model exploded" rfl
    (by decide) rfl (by decide) (by decide) "model exploded" rfl
  refine ⟨h.1, ?_, ?_⟩
  · rw [h.2.2.2.2.2]
  · rw [h.2.2.2.2.2]

/- ===================================================================
   Claims C2, C5 (variant V1), the V1 counterexamples, and C7.
   =================================================================== -/

/-- When strategy 1 produced a non-empty payload, strategy 2 leaves the
    transcript untouched. -/
theorem v1T2_of_ne {env : V1Env} (h : v1T1 env ≠ "") : v1T2 env = v1T1 env := by
  unfold v1T2
  rw [if_neg (fun hc => h hc.1)]

/-- The V1 trace's strategy-2/3 flags, independent of the branch taken. -/
theorem v1POST_m23 (env : V1Env) (hurl : env.url ≠ "") (hkey : env.hasKey = true)
    (hvid : (extractVideoId env.url).getD "" ≠ "") :
    (v1POST env).2.m2Tried = (decide (v1T1 env = "") && env.ytdlpExists) ∧
    (v1POST env).2.m3Tried = decide (v1T2 env = "") := by
  by_cases hlong : 100 < (v1T3 env).length
  · rw [v1POST_text env hurl hkey hvid hlong]
    exact ⟨rfl, rfl⟩
  · rw [v1POST_audio env hurl hkey hvid hlong]
    exact ⟨rfl, rfl⟩

/-- C2 (amended): variant V1 tries its three transcript strategies strictly
    in order and stops at the first whose payload is non-empty.  A later
    strategy runs only when every earlier one produced an empty outcome (so
    in particular only when every earlier one was non-usable); if strategy 1
    fails and strategy 2 returns a usable payload, strategy 3 never runs and
    strategy 2's payload is the one processed.  A non-empty but short payload
    also stops the sequence — the code short-circuits on non-empty, not on
    usable (see the counterexample). -/
theorem c2_ordered_short_circuit (env : V1Env)
    (hurl : env.url ≠ "") (hkey : env.hasKey = true)
    (hvid : (extractVideoId env.url).getD "" ≠ "") :
    ((v1POST env).2.m2Tried = true → v1T1 env = "" ∧ env.ytdlpExists = true) ∧
    ((v1POST env).2.m3Tried = true → v1T2 env = "" ∧ v1T1 env = "") ∧
    (v1T1 env ≠ "" →
      (v1POST env).2.m2Tried = false ∧ (v1POST env).2.m3Tried = false) ∧
    (v1T1 env = "" → env.ytdlpExists = true → ∀ s, env.m2 = .ok s → 100 < s.length →
      (v1POST env).2.m2Tried = true ∧ (v1POST env).2.m3Tried = false ∧
      (v1POST env).2.textPrompt? = some (v1TextPrompt s)) := by
  obtain ⟨hm2, hm3⟩ := v1POST_m23 env hurl hkey hvid
  refine ⟨?_, ?_, ?_, ?_⟩
  · intro h
    rw [hm2] at h
    simp only [Bool.and_eq_true, decide_eq_true_eq] at h
    exact h
  · intro h
    rw [hm3] at h
    simp only [decide_eq_true_eq] at h
    refine ⟨h, ?_⟩
    by_cases h1 : v1T1 env = ""
    · exact h1
    · rw [v1T2_of_ne h1] at h
      exact absurd h h1
  · intro h1
    constructor
    · rw [hm2]
      simp [h1]
    · rw [hm3, v1T2_of_ne h1]
      simp [h1]
  · intro h1 hyt s hm2eq hs
    have ht2 : v1T2 env = s := by
      unfold v1T2
      rw [if_pos ⟨h1, hyt⟩, hm2eq]
    have ht3 : v1T3 env = s := by
      unfold v1T3
      rw [ht2, if_neg (long_ne_empty hs)]
    have hlong : 100 < (v1T3 env).length := by rw [ht3]; exact hs
    rw [v1POST_text env hurl hkey hvid hlong]
    refine ⟨?_, ?_, ?_⟩
    · simp [h1, hyt]
    · simp [ht2, long_ne_empty hs]
    · rw [ht3]

/-- Closed instance of C2's amended theorem: strategy 1 fails, strategy 2
    returns a usable payload, strategy 3 never runs. -/
theorem c2_ordered_short_circuit_witness :
    (v1POST m2WinsV1Env).2.m2Tried = true ∧
    (v1POST m2WinsV1Env).2.m3Tried = false ∧
    (v1POST m2WinsV1Env).2.textPrompt? = some (v1TextPrompt longTranscript) := by
  have h := (c2_ordered_short_circuit m2WinsV1Env (by decide) rfl (by decide)).2.2.2
    rfl rfl longTranscript rfl (by decide)
  exact h

/-- C2 counterexample: the claim as stated — stop only at the first *usable*
    payload — fails on the code: here strategy 1 returns an 18-character
    payload (non-empty but far below the usability threshold), strategy 2
    holds a usable payload and yt-dlp is available, yet strategy 2 is never
    invoked and the pipeline falls through to the audio phase. -/
theorem c2_counterexample_short_payload_stops :
    v1T1 shortStopV1Env ≠ "" ∧
    (v1T1 shortStopV1Env).length ≤ 100 ∧
    shortStopV1Env.ytdlpExists = true ∧
    shortStopV1Env.m2 = .ok longTranscript ∧
    100 < longTranscript.length ∧
    (v1POST shortStopV1Env).2.m2Tried = false ∧
    (v1POST shortStopV1Env).2.m3Tried = false ∧
    (v1POST shortStopV1Env).2.audioPhase = true :=
  ⟨by decide, by decide, rfl, rfl, by decide, rfl, rfl, rfl⟩

/-- C3 counterexample: variant V1's ytdl-core audio fallback has no size
    check — a 19 MiB + 1 payload is handed to the model inline and the
    request completes with 200 instead of being rejected with the
    size-specific error. -/
theorem c3_counterexample_v1_oversized_sent :
    mib19 < bigBuf.len ∧
    (v1POST bigAudioV1Env).2.audioSent? = some bigBuf ∧
    (v1POST bigAudioV1Env).1.status = 200 ∧
    (v1POST bigAudioV1Env).1.error? = none :=
  ⟨by decide, rfl, rfl, rfl⟩

/-- C5 (amended): variant V1 rejects a reference with no extractable
    11-character identifier immediately — HTTP 400, "Invalid YouTube URL" —
    with no acquisition work of any kind; the canonical route instead merely
    skips transcript acquisition and proceeds into its audio branch. -/
theorem c5_invalid_reference (env : V1Env) (renv : RouteEnv)
    (hurl : env.url ≠ "") (hkey : env.hasKey = true)
    (hvid : (extractVideoId env.url).getD "" = "")
    (hrurl : renv.url ≠ "") (hrkey : renv.hasKey = true)
    (hrvid : routeVideoId renv = "") :
    v1POST env = ({ status := 400, error? := some "Invalid YouTube URL" }, {}) ∧
    (routePOST renv).2.fetchTried = false ∧
    (routePOST renv).2.textPrompt? = none ∧
    (routePOST renv).2.audioBranch = true := by
  have ht : routeTranscriptText renv = "" := by
    unfold routeTranscriptText
    rw [if_pos hrvid]
  have hra := routePOST_audio renv hrurl hrkey (by rw [ht]; decide)
  refine ⟨?_, ?_, ?_, ?_⟩
  · simp only [v1POST, if_neg hurl, hrkey, hkey]
    rw [if_neg (by simp), if_pos hvid]
  · rw [hra]
    simp [hrvid]
  · rw [hra]
  · rw [hra]

/-- Closed instance of C5's amended theorem on `https://example.com/videos`. -/
theorem c5_invalid_reference_witness :
    v1POST noIdV1Env = ({ status := 400, error? := some "Invalid YouTube URL" }, {}) ∧
    (routePOST noIdRouteEnv).2.audioBranch = true := by
  have h := c5_invalid_reference noIdV1Env noIdRouteEnv
    (by decide) rfl (by decide) (by decide) rfl (by decide)
  exact ⟨h.1, h.2.2.2⟩

/-- Once the countdown is cleared, no number of timer steps fires a
    submission. -/
theorem firesWithin_none (k : Nat) : ∀ s : UiState, s.retryCountdown = none →
    firesWithin k s = false := by
  induction k with
  | zero => intro s _; rfl
  | succ k ih =>
    intro s h
    have ht : tickUi s = (s, false) := by
      unfold tickUi
      rw [h]
    simp only [firesWithin, ht]
    simpa using ih s h

/-- C7: from any cooldown state with positive countdown, a user cancel
    clears the timer — no automatic retry submission ever fires afterwards,
    however many seconds elapse — and the reported status is exactly the
    fixed distinct message `Retry cancelled.`, whatever error the original
    request had reported. -/
theorem c7_cancel_halts_retry (s : UiState) (n : Nat)
    (hcd : s.retryCountdown = some n) (hpos : 0 < n) :
    (cancelRetry s).retryCountdown = none ∧
    (cancelRetry s).error = "Retry cancelled." ∧
    (cancelRetry s).loading = false ∧
    (∀ k, firesWithin k (cancelRetry s) = false) :=
  ⟨rfl, rfl, rfl, fun k => firesWithin_none k _ rfl⟩

/-- Closed instance of C7 at the spec's scenario (countdown 12). -/
theorem c7_cancel_halts_retry_witness :
    cooldown12.retryCountdown = some 12 ∧
    (cancelRetry cooldown12).error = "Retry cancelled." ∧
    firesWithin 100 (cancelRetry cooldown12) = false := by
  have h := c7_cancel_halts_retry cooldown12 12 rfl (by decide)
  exact ⟨rfl, h.2.1, h.2.2.2 100⟩
